import Mathlib

/-!
The amesh command: rain handler throttle, renderer selection, sixel probe

A shallow embedding of `src/amesh/main.go`.

* `time.Time` is an instant counted in nanoseconds from Go's zero time
  (January 1, year 1, 00:00:00 UTC), so `IsZero` is equality with `0`,
  `Add` is addition and `After` is `>`.  The saturation of `Add` at the ends
  of the int64 second range is outside the embedded range.
* `error` is `Option GoError`, `none` being `nil`.
* `Notifier.Notify` is an external call: its result is supplied by the caller
  of the handler as a function of the message.
-/

namespace Amesh

/-- Go `time.Time`, nanoseconds since the zero time. -/
abbrev Time := Int

/-- Go `time.Duration`, nanoseconds. -/
abbrev Duration := Int

/-- Go `error` values other than `nil`. -/
abbrev GoError := String

/-- The method `Time.IsZero`. -/
def Time.IsZero (t : Time) : Bool := decide (t = 0)

/-- The method `Time.Add`. -/
def Time.Add (t : Time) (d : Duration) : Time := t + d

/-- The method `Time.After`. -/
def Time.After (t u : Time) : Bool := decide (u < t)

/-- The value `time.Time{}`. -/
def Time.zero : Time := 0

/-- The notifiers `startDaemon` can construct. -/
inductive Notifier where
  | slack (token channel : String)
  | twitter (consumerKey consumerSecret accessToken accessTokenSecret : String)
  deriving DecidableEq, Repr

/-- The fields of `amesh.Observer` read or written by `startDaemon`. -/
structure Observer where
  LastRain : Time
  NotificationInterval : Duration
  Notifier : Option Notifier
  deriving DecidableEq, Repr

/-- The field of `amesh.Event` read by the rain handler. -/
structure Event where
  Timestamp : Time
  deriving DecidableEq, Repr

/-- What the rain handler closure captures besides the observer: `users`,
the constant `amesh.AmeshURL` and the clock formatting `Format("15:04:05")`. -/
structure Env where
  users : List String
  AmeshURL : String
  formatClock : Time → String

/-- The notifier selection of `startDaemon`, by `AMESH_NOTIFICATION_SERVICE`. -/
def configureNotifier (getenv : String → String) : Option Notifier :=
  if getenv "AMESH_NOTIFICATION_SERVICE" = "slack" then
    some (Notifier.slack (getenv "AMESH_SLACK_TOKEN") (getenv "AMESH_SLACK_CHANNEL"))
  else if getenv "AMESH_NOTIFICATION_SERVICE" = "twitter" then
    some (Notifier.twitter (getenv "AMESH_TWITTER_CONSUMER_KEY")
      (getenv "AMESH_TWITTER_CONSUMER_SECRET")
      (getenv "AMESH_TWITTER_ACCESS_TOKEN")
      (getenv "AMESH_TWITTER_ACCESS_TOKEN_SECRET"))
  else none

/-- The message built at the top of the rain handler. -/
def rainMsg (env : Env) (ev : Event) : String :=
  String.intercalate " " env.users ++ " 雨がふってるよ！\n" ++ env.AmeshURL ++ " "
    ++ env.formatClock ev.Timestamp

/-- What one run of the rain handler does besides updating the observer:
the messages passed to `Notifier.Notify`, in order, the line logged, and the
error returned. -/
structure HandlerOut where
  calls : List String
  logged : String
  ret : Option GoError
  deriving DecidableEq, Repr

/-- The rain handler registered in `startDaemon`.  `notify` gives the result
of `Notifier.Notify` on a message, were it called in this run. -/
def rainHandler (env : Env) (notify : String → Option GoError) (observer : Observer)
    (ev : Event) : Observer × HandlerOut :=
  let msg := rainMsg env ev
  let logged := "[RAIN] " ++ msg
  if observer.LastRain.IsZero && observer.Notifier.isSome then
    (observer, { calls := [msg], logged := logged, ret := notify msg })
  else
    let o1 : Observer :=
      if observer.LastRain.IsZero then { observer with LastRain := ev.Timestamp }
      else observer
    let o2 : Observer :=
      if ev.Timestamp.After (o1.LastRain.Add o1.NotificationInterval) then
        { o1 with LastRain := Time.zero }
      else o1
    (o2, { calls := [], logged := logged, ret := none })

/-- The rain handler run on a sequence of events, each with the result
`Notify` would give during that run; the observer is threaded through. -/
def runRain (env : Env) (observer : Observer) :
    List (Event × (String → Option GoError)) → Observer × List HandlerOut
  | [] => (observer, [])
  | (ev, notify) :: rest =>
    let r := rainHandler env notify observer ev
    let rs := runRain env r.1 rest
    (rs.1, r.2 :: rs.2)

/-- The observers after each event of a run, in order. -/
def statesRain (env : Env) (observer : Observer) :
    List (Event × (String → Option GoError)) → List Observer
  | [] => []
  | (ev, notify) :: rest =>
    let r := rainHandler env notify observer ev
    r.1 :: statesRain env r.1 rest

/-- The number of `Notify` calls in a run. -/
def notifyCount (outs : List HandlerOut) : Nat :=
  (outs.map (fun o => o.calls.length)).sum

/-! ## Renderer selection in `main` -/

/-- The command-line flags declared in `init`. -/
structure Flags where
  geo : Bool
  mask : Bool
  usepix : Bool
  daemon : Bool
  usepxl : Bool
  deriving DecidableEq, Repr

/-- The four ways `main` draws the merged image: the iTerm inline image
escape, the sixel encoder, `pxlNew`, and the `gat` client. -/
inductive Renderer where
  | iterm
  | sixel
  | pxl
  | gat
  deriving DecidableEq, Repr

/-- How a run of `main` ends: in daemon mode, through `onerror` (exit status
1) before anything is drawn, or with the image drawn by one renderer. -/
inductive MainOutcome where
  | daemonStarted
  | exitFailure
  | rendered (r : Renderer)
  deriving DecidableEq, Repr

/-- The function `main`.  `imageOk` says `entry.Image` returned no error,
`pngOk` the same of `png.Encode`, and `sixelOk` is what `sixelSupported()`
returns when the switch reaches it. -/
def main (flags : Flags) (getenv : String → String) (sixelOk imageOk pngOk : Bool) :
    MainOutcome :=
  if flags.daemon then MainOutcome.daemonStarted
  else if !imageOk then MainOutcome.exitFailure
  else if !flags.usepix && decide (getenv "TERM_PROGRAM" = "iTerm.app")
      && decide (getenv "TERM" ≠ "screen") then
    if !pngOk then MainOutcome.exitFailure else MainOutcome.rendered Renderer.iterm
  else if sixelOk then MainOutcome.rendered Renderer.sixel
  else if flags.usepxl then MainOutcome.rendered Renderer.pxl
  else MainOutcome.rendered Renderer.gat

/-! ## The sixel probe -/

/-- A byte. -/
abbrev Byte := Nat

/-- What the terminal does during `sixelSupported`: whether
`terminal.MakeRaw` and the write of the query succeed, and the bytes `Read`
delivers (`none` when `Read` returns an error). -/
structure Terminal where
  makeRawOk : Bool
  writeOk : Bool
  read : Option (List Byte)

/-- The slice expression `b[lo:hi]`; `none` is the run-time panic of an
out-of-range slice. -/
def sliceBytes (b : List Byte) (lo hi : Nat) : Option (List Byte) :=
  if lo ≤ hi ∧ hi ≤ b.length then some ((b.take hi).drop lo) else none

/-- The function `bytes.HasPrefix`. -/
def bytesHasPrefix (s pre : List Byte) : Bool := pre.isPrefixOf s

/-- The function `bytes.Split` for a separator of one byte. -/
def bytesSplit : List Byte → Byte → List (List Byte)
  | [], _ => [[]]
  | c :: cs, sep =>
    if c = sep then [] :: bytesSplit cs sep
    else
      match bytesSplit cs sep with
      | [] => [[c]]
      | f :: fs => (c :: f) :: fs

/-- The bytes of `"\x1b[?63;"`. -/
def daPrefix : List Byte := [27, 91, 63, 54, 51, 59]

/-- The test in the loop body of `sixelSupported`:
`len(t) == 1 && t[0] == '4'`. -/
def isFour (t : List Byte) : Bool :=
  decide (t.length = 1) && decide (t.head? = some 52)

/-- The function `sixelSupported`; `none` is a run-time panic.  The array
`b` has 100 bytes: the bytes read, then zeros. -/
def sixelSupported (term : Terminal) : Option Bool :=
  if !term.makeRawOk then some false
  else if !term.writeOk then some false
  else
    match term.read with
    | none => some false
    | some r =>
      let b : List Byte := (r ++ List.replicate (100 - r.length) 0).take 100
      let n := r.length
      match sliceBytes b 0 n with
      | none => none
      | some head =>
        if !bytesHasPrefix head daPrefix then some false
        else
          match sliceBytes b 4 n with
          | none => none
          | some body => some ((bytesSplit body 59).any isFour)

/-! ## Sample values -/

/-- A sample closure environment. -/
def demoEnv : Env :=
  { users := ["@alice", "@bob"], AmeshURL := "https://tokyo-ame.jwa.or.jp/",
    formatClock := fun _ => "15:04:05" }

/-- A `Notify` that succeeds. -/
def notifyOk : String → Option GoError := fun _ => none

/-- A `Notify` that fails with the given error. -/
def notifyFail (e : GoError) : String → Option GoError := fun _ => some e

/-- One minute, in nanoseconds. -/
def minute : Duration := 60000000000

/-- An observer as `startDaemon` has it before the first event, for a given
notifier and a 30 minute interval. -/
def freshObserver (n : Option Notifier) : Observer :=
  { LastRain := Time.zero, NotificationInterval := 30 * minute, Notifier := n }

/-- A slack notifier. -/
def demoSlack : Notifier := Notifier.slack "token" "#rain"

/-- An observer whose `LastRain` was set at 1h after the zero time. -/
def coolingObserver (n : Option Notifier) : Observer :=
  { LastRain := 60 * minute, NotificationInterval := 30 * minute, Notifier := n }

/-- An environment of an iTerm session outside `screen`. -/
def itermGetenv : String → String := fun k =>
  if k = "TERM_PROGRAM" then "iTerm.app" else if k = "TERM" then "xterm-256color" else ""

/-- An environment of a plain xterm session. -/
def xtermGetenv : String → String := fun k =>
  if k = "TERM_PROGRAM" then "" else if k = "TERM" then "xterm" else ""

/-- A terminal on which `MakeRaw` and the write succeed and `Read` delivers
the bytes `r`. -/
def replyTerminal (r : List Byte) : Terminal :=
  { makeRawOk := true, writeOk := true, read := some r }

/-- The reply `ESC [ ? 6 3 ; 1 ; 2 ; 4 ; 6 c` to the device attributes query. -/
def daReplySixel : List Byte := [27, 91, 63, 54, 51, 59, 49, 59, 50, 59, 52, 59, 54, 99]

/-- The flags of `amesh -x`: the defaults of `init` with `usepxl` set. -/
def flagsX : Flags :=
  { geo := true, mask := true, usepix := false, daemon := false, usepxl := true }

end Amesh

namespace Amesh

/-! ## The rain handler, one event -/

theorem rainHandler_idle_notifier (env : Env) (notify : String → Option GoError)
    (o : Observer) (ev : Event) (h0 : o.LastRain = 0) (hn : o.Notifier.isSome = true) :
    rainHandler env notify o ev =
      (o, { calls := [rainMsg env ev], logged := "[RAIN] " ++ rainMsg env ev,
            ret := notify (rainMsg env ev) }) := by
  simp [rainHandler, Time.IsZero, h0, hn]

theorem rainHandler_no_call (env : Env) (notify : String → Option GoError)
    (o : Observer) (ev : Event) (h : ¬ (o.LastRain = 0 ∧ o.Notifier.isSome = true)) :
    (rainHandler env notify o ev).2 =
      { calls := [], logged := "[RAIN] " ++ rainMsg env ev, ret := none } := by
  unfold rainHandler
  have hc : (Time.IsZero o.LastRain && o.Notifier.isSome) = false := by
    simp only [Time.IsZero, Bool.and_eq_false_imp, decide_eq_true_eq]
    intro h1
    simpa [h1] using h
  simp [hc]

theorem rainHandler_cooling (env : Env) (notify : String → Option GoError)
    (o : Observer) (ev : Event) (h : o.LastRain ≠ 0) :
    rainHandler env notify o ev =
      (if o.LastRain + o.NotificationInterval < ev.Timestamp then
          { o with LastRain := 0 } else o,
        { calls := [], logged := "[RAIN] " ++ rainMsg env ev, ret := none }) := by
  simp [rainHandler, Time.IsZero, Time.After, Time.Add, Time.zero, h]

/-! ## Claims about the rain handler -/

/-- C1 (evaluation at the failing input): with a slack notifier, a 30 minute
interval and `LastRain` unset, two events one second apart (at 1h and
1h + 1s after the zero time) make the handler call `Notify` once for each
event, two calls over the sequence, and `LastRain` is unset at the end. -/
theorem rain_window_notifies_each_event :
    ((runRain demoEnv (freshObserver (some demoSlack))
        [(⟨60 * minute⟩, notifyOk), (⟨60 * minute + 1000000000⟩, notifyOk)]).2.map
          (fun out => out.calls.length) = [1, 1]) ∧
    notifyCount (runRain demoEnv (freshObserver (some demoSlack))
        [(⟨60 * minute⟩, notifyOk), (⟨60 * minute + 1000000000⟩, notifyOk)]).2 = 2 ∧
    (runRain demoEnv (freshObserver (some demoSlack))
        [(⟨60 * minute⟩, notifyOk), (⟨60 * minute + 1000000000⟩, notifyOk)]).1.LastRain
      = Time.zero := by
  refine ⟨?_, ?_, ?_⟩ <;>
    simp [runRain, notifyCount, rainHandler_idle_notifier, freshObserver, Time.zero, demoSlack]

/-- C2 (evaluation at the failing input): with a slack notifier, a 30 minute
interval and `LastRain` unset, events at 0, 10, 45 and 46 minutes after a
base instant make the handler call `Notify` on all four, the events at
10 and 45 minutes included: four calls, not two. -/
theorem rain_rearm_scenario_four_calls :
    ((runRain demoEnv (freshObserver (some demoSlack))
        [(⟨60 * minute⟩, notifyOk), (⟨70 * minute⟩, notifyOk),
         (⟨105 * minute⟩, notifyOk), (⟨106 * minute⟩, notifyOk)]).2.map
          (fun out => out.calls.length) = [1, 1, 1, 1]) ∧
    notifyCount (runRain demoEnv (freshObserver (some demoSlack))
        [(⟨60 * minute⟩, notifyOk), (⟨70 * minute⟩, notifyOk),
         (⟨105 * minute⟩, notifyOk), (⟨106 * minute⟩, notifyOk)]).2 = 4 := by
  refine ⟨?_, ?_⟩ <;>
    simp [runRain, notifyCount, rainHandler_idle_notifier, freshObserver, Time.zero, demoSlack]

/-- C3 (evaluation at the failing input): with a slack notifier and
`LastRain` unset, an event at 1h after the zero time makes the handler call
`Notify` once, and `LastRain` is still unset afterwards: it is not the
event's timestamp. -/
theorem rain_idle_notifier_stays_idle :
    (rainHandler demoEnv notifyOk (freshObserver (some demoSlack)) ⟨60 * minute⟩).2.calls.length
      = 1 ∧
    (rainHandler demoEnv notifyOk (freshObserver (some demoSlack)) ⟨60 * minute⟩).1.LastRain
      = Time.zero ∧
    (rainHandler demoEnv notifyOk (freshObserver (some demoSlack)) ⟨60 * minute⟩).1.LastRain
      ≠ (⟨60 * minute⟩ : Event).Timestamp := by
  refine ⟨?_, ?_, ?_⟩ <;>
    simp [rainHandler_idle_notifier, freshObserver, Time.zero, demoSlack, minute]

/-- C4: when `LastRain` is set (non-zero), with or without a notifier, the
rain handler makes no `Notify` call; afterwards `LastRain` is unset when the
event's timestamp is after `LastRain + NotificationInterval`, and unchanged
when it is not. -/
theorem rain_cooling_transitions (env : Env) (notify : String → Option GoError)
    (o : Observer) (ev : Event) (h : o.LastRain ≠ Time.zero) :
    (rainHandler env notify o ev).2.calls = [] ∧
    (o.LastRain + o.NotificationInterval < ev.Timestamp →
      (rainHandler env notify o ev).1.LastRain = Time.zero) ∧
    (ev.Timestamp ≤ o.LastRain + o.NotificationInterval →
      (rainHandler env notify o ev).1.LastRain = o.LastRain) := by
  have h' : o.LastRain ≠ 0 := h
  rw [rainHandler_cooling env notify o ev h']
  refine ⟨rfl, ?_, ?_⟩
  · intro hlt
    simp [hlt, Time.zero]
  · intro hle
    have : ¬ (o.LastRain + o.NotificationInterval < ev.Timestamp) := not_lt.mpr hle
    simp [this]

/-- C5: on any run in which the handler calls `Notify`, the observer (and so
`LastRain`) after the handler returns is the same whatever `Notify`
returned, an error or not. -/
theorem rain_failure_keeps_state (env : Env) (f g : String → Option GoError)
    (o : Observer) (ev : Event) (h : (rainHandler env f o ev).2.calls ≠ []) :
    (rainHandler env f o ev).1.LastRain = (rainHandler env g o ev).1.LastRain ∧
    (rainHandler env f o ev).1 = (rainHandler env g o ev).1 := by
  by_cases hc : o.LastRain = 0 ∧ o.Notifier.isSome = true
  · simp [rainHandler_idle_notifier env _ o ev hc.1 hc.2]
  · exact absurd (by rw [rainHandler_no_call env f o ev hc]) h

/-- C6: the rain handler returns a non-nil error exactly when it called
`Notify` and `Notify` returned an error; what it returns is then that
error, and it returns nil when `Notify` succeeded or was not called. -/
theorem rain_error_surfaced (env : Env) (notify : String → Option GoError)
    (o : Observer) (ev : Event) :
    ((rainHandler env notify o ev).2.ret ≠ none ↔
      ∃ msg e, msg ∈ (rainHandler env notify o ev).2.calls ∧ notify msg = some e) ∧
    (∀ msg ∈ (rainHandler env notify o ev).2.calls,
      (rainHandler env notify o ev).2.ret = notify msg) ∧
    ((rainHandler env notify o ev).2.calls = [] →
      (rainHandler env notify o ev).2.ret = none) := by
  by_cases hc : o.LastRain = 0 ∧ o.Notifier.isSome = true
  · rw [rainHandler_idle_notifier env notify o ev hc.1 hc.2]
    simp [Option.ne_none_iff_exists']
  · rw [rainHandler_no_call env notify o ev hc]
    simp

/-- C7: when `LastRain` is set (non-zero) before the rain handler runs, it is
afterwards either the same value or unset; so if it is still set, it is not
earlier than before. -/
theorem rain_lastRain_monotone (env : Env) (notify : String → Option GoError)
    (o : Observer) (ev : Event) (h : o.LastRain ≠ Time.zero) :
    ((rainHandler env notify o ev).1.LastRain = o.LastRain ∨
      (rainHandler env notify o ev).1.LastRain = Time.zero) ∧
    ((rainHandler env notify o ev).1.LastRain ≠ Time.zero →
      o.LastRain ≤ (rainHandler env notify o ev).1.LastRain) := by
  have h' : o.LastRain ≠ 0 := h
  rw [rainHandler_cooling env notify o ev h']
  by_cases hlt : o.LastRain + o.NotificationInterval < ev.Timestamp
  · simp [hlt, Time.zero]
  · simp [hlt]

/-- C9: with a notifier configured and `LastRain` unset, on every finite
sequence of events, with any `Notify` results, the handler calls `Notify`
once on every event and returns what `Notify` returned, and the observer
after each event is the initial one, so `LastRain` is unset after each
event and at the end. -/
theorem rain_unthrottled_with_notifier (env : Env) (o : Observer)
    (evs : List (Event × (String → Option GoError)))
    (h0 : o.LastRain = Time.zero) (hn : o.Notifier.isSome = true) :
    (runRain env o evs).2 = evs.map (fun p =>
      { calls := [rainMsg env p.1], logged := "[RAIN] " ++ rainMsg env p.1,
        ret := p.2 (rainMsg env p.1) }) ∧
    statesRain env o evs = List.replicate evs.length o ∧
    (∀ s ∈ statesRain env o evs, s.LastRain = Time.zero) ∧
    (runRain env o evs).1 = o ∧
    notifyCount (runRain env o evs).2 = evs.length := by
  have h0' : o.LastRain = 0 := h0
  induction evs with
  | nil => simp [runRain, statesRain, notifyCount]
  | cons p rest ih =>
    obtain ⟨ev, notify⟩ := p
    obtain ⟨ih1, ih2, ih3, ih4, ih5⟩ := ih
    have hstep := rainHandler_idle_notifier env notify o ev h0' hn
    refine ⟨?_, ?_, ?_, ?_, ?_⟩
    · simp [runRain, hstep, ih1]
    · simp [statesRain, hstep, ih2, List.replicate_succ]
    · intro s hs
      simp only [statesRain, hstep, List.mem_cons] at hs
      rcases hs with rfl | hs
      · exact h0
      · exact ih3 s hs
    · simp [runRain, hstep, ih4]
    · simp only [notifyCount] at ih5
      simp only [runRain, hstep, notifyCount, List.map_cons, List.sum_cons, List.length_cons,
        List.length_nil, ih5]
      omega

/-- Witness of C4: a set `LastRain` of 1h, a 30 minute interval, no
notifier, and an event at 1h40m: no `Notify` call, and `LastRain` is unset
afterwards. -/
theorem rain_cooling_transitions_witness :
    (coolingObserver none).LastRain ≠ Time.zero ∧
    (rainHandler demoEnv notifyOk (coolingObserver none) ⟨100 * minute⟩).2.calls = [] ∧
    (rainHandler demoEnv notifyOk (coolingObserver none) ⟨100 * minute⟩).1.LastRain
      = Time.zero :=
  ⟨by decide,
   (rain_cooling_transitions demoEnv notifyOk (coolingObserver none) ⟨100 * minute⟩
      (by decide)).1,
   (rain_cooling_transitions demoEnv notifyOk (coolingObserver none) ⟨100 * minute⟩
      (by decide)).2.1 (by decide)⟩

/-- Witness of C5: from the unset state with a slack notifier the handler
calls `Notify`, and the observer afterwards is the same for a failing and a
succeeding `Notify`. -/
theorem rain_failure_keeps_state_witness :
    (rainHandler demoEnv (notifyFail "timeout") (freshObserver (some demoSlack))
        ⟨60 * minute⟩).2.calls ≠ [] ∧
    (rainHandler demoEnv (notifyFail "timeout") (freshObserver (some demoSlack))
        ⟨60 * minute⟩).1 =
      (rainHandler demoEnv notifyOk (freshObserver (some demoSlack)) ⟨60 * minute⟩).1 :=
  ⟨by simp [rainHandler_idle_notifier, freshObserver, Time.zero, demoSlack],
   (rain_failure_keeps_state demoEnv (notifyFail "timeout") notifyOk
      (freshObserver (some demoSlack)) ⟨60 * minute⟩
      (by simp [rainHandler_idle_notifier, freshObserver, Time.zero, demoSlack])).2⟩

/-- Witness of C7: a set `LastRain` of 1h, a 30 minute interval and an event
at 1h10m: `LastRain` is still 1h afterwards. -/
theorem rain_lastRain_monotone_witness :
    (coolingObserver (some demoSlack)).LastRain ≠ Time.zero ∧
    (coolingObserver (some demoSlack)).LastRain ≤
      (rainHandler demoEnv notifyOk (coolingObserver (some demoSlack))
        ⟨70 * minute⟩).1.LastRain :=
  ⟨by decide,
   (rain_lastRain_monotone demoEnv notifyOk (coolingObserver (some demoSlack)) ⟨70 * minute⟩
      (by decide)).2
      (by simp [rainHandler_cooling, coolingObserver, minute, Time.zero])⟩

/-- Witness of C9: three events at 1h, 1h10m and 2h, the second with a
failing `Notify`: three `Notify` calls, and the observer is the initial one
at the end. -/
theorem rain_unthrottled_with_notifier_witness :
    (freshObserver (some demoSlack)).LastRain = Time.zero ∧
    (freshObserver (some demoSlack)).Notifier.isSome = true ∧
    (runRain demoEnv (freshObserver (some demoSlack))
        [(⟨60 * minute⟩, notifyOk), (⟨70 * minute⟩, notifyFail "timeout"),
         (⟨120 * minute⟩, notifyOk)]).1 = freshObserver (some demoSlack) ∧
    notifyCount (runRain demoEnv (freshObserver (some demoSlack))
        [(⟨60 * minute⟩, notifyOk), (⟨70 * minute⟩, notifyFail "timeout"),
         (⟨120 * minute⟩, notifyOk)]).2 = 3 :=
  ⟨rfl, rfl,
   (rain_unthrottled_with_notifier demoEnv (freshObserver (some demoSlack))
      [(⟨60 * minute⟩, notifyOk), (⟨70 * minute⟩, notifyFail "timeout"),
       (⟨120 * minute⟩, notifyOk)] rfl rfl).2.2.2.1,
   (rain_unthrottled_with_notifier demoEnv (freshObserver (some demoSlack))
      [(⟨60 * minute⟩, notifyOk), (⟨70 * minute⟩, notifyFail "timeout"),
       (⟨120 * minute⟩, notifyOk)] rfl rfl).2.2.2.2⟩

/-! ## Claims about the renderer selection -/

/-- C8 as stated fails: with `-x` set, `main` draws with the iTerm inline
image in an iTerm session, with sixel when `sixelSupported()` is true, and
draws nothing in daemon mode or when `entry.Image` fails. -/
theorem main_usepxl_not_always_pxl :
    flagsX.usepxl = true ∧
    main flagsX itermGetenv false true true = MainOutcome.rendered Renderer.iterm ∧
    main flagsX xtermGetenv true true true = MainOutcome.rendered Renderer.sixel ∧
    main { flagsX with daemon := true } xtermGetenv false true true
      = MainOutcome.daemonStarted ∧
    main flagsX xtermGetenv false false true = MainOutcome.exitFailure := by
  refine ⟨rfl, ?_, ?_, ?_, ?_⟩ <;> decide

/-- C8, amended: when `-x` is set, `-d` is not, `entry.Image` succeeds, the
iTerm case does not apply (`-p` is set, or `TERM_PROGRAM` is not
`iTerm.app`, or `TERM` is `screen`) and `sixelSupported()` is false, `main`
draws the merged image with `pxlNew`, and so with none of the other three
renderers. -/
theorem main_usepxl_selects_pxl (flags : Flags) (getenv : String → String) (pngOk : Bool)
    (hx : flags.usepxl = true) (hd : flags.daemon = false)
    (hi : flags.usepix = true ∨ getenv "TERM_PROGRAM" ≠ "iTerm.app" ∨ getenv "TERM" = "screen") :
    main flags getenv false true pngOk = MainOutcome.rendered Renderer.pxl ∧
    ∀ r, r ≠ Renderer.pxl → main flags getenv false true pngOk ≠ MainOutcome.rendered r := by
  have hm : main flags getenv false true pngOk = MainOutcome.rendered Renderer.pxl := by
    unfold main
    rcases hi with h | h | h <;> simp [hx, hd, h]
  refine ⟨hm, ?_⟩
  intro r hr heq
  rw [hm] at heq
  exact hr (MainOutcome.rendered.inj heq).symm

/-- Witness of C8, amended: `amesh -x` in a plain xterm session without
sixel support draws with `pxlNew`. -/
theorem main_usepxl_selects_pxl_witness :
    flagsX.usepxl = true ∧ flagsX.daemon = false ∧
    xtermGetenv "TERM_PROGRAM" ≠ "iTerm.app" ∧
    main flagsX xtermGetenv false true true = MainOutcome.rendered Renderer.pxl :=
  ⟨rfl, rfl, by decide,
   (main_usepxl_selects_pxl flagsX xtermGetenv true rfl rfl (Or.inr (Or.inl (by decide)))).1⟩

/-! ## The fields of a split -/

theorem isFour_iff (t : List Byte) : isFour t = true ↔ t = [52] := by
  cases t with
  | nil => simp [isFour]
  | cons a t =>
    cases t with
    | nil => simp [isFour]
    | cons b t => simp [isFour]

theorem bytesSplit_cons_sep (cs : List Byte) (sep : Byte) :
    bytesSplit (sep :: cs) sep = [] :: bytesSplit cs sep := by
  simp [bytesSplit]

theorem bytesSplit_ne_nil (s : List Byte) (sep : Byte) : bytesSplit s sep ≠ [] := by
  cases s with
  | nil => simp [bytesSplit]
  | cons c cs =>
    by_cases h : c = sep
    · simp [bytesSplit, h]
    · cases hs : bytesSplit cs sep <;> simp [bytesSplit, h, hs]

theorem bytesSplit_cons_ne (c : Byte) (cs : List Byte) (sep : Byte) (h : c ≠ sep) :
    ∃ f fs, bytesSplit cs sep = f :: fs ∧ bytesSplit (c :: cs) sep = (c :: f) :: fs := by
  cases hs : bytesSplit cs sep with
  | nil => exact absurd hs (bytesSplit_ne_nil cs sep)
  | cons f fs => exact ⟨f, fs, rfl, by simp [bytesSplit, h, hs]⟩

theorem bytesSplit_head_nil (s f : List Byte) (fs : List (List Byte))
    (h : bytesSplit s 59 = f :: fs) : f = [] ↔ s = [] ∨ [59] <+: s := by
  cases s with
  | nil =>
    simp only [bytesSplit, List.cons.injEq] at h
    obtain ⟨rfl, rfl⟩ := h
    simp
  | cons c cs =>
    by_cases hc : c = 59
    · subst hc
      rw [bytesSplit_cons_sep] at h
      simp only [List.cons.injEq] at h
      obtain ⟨rfl, rfl⟩ := h
      simp [List.cons_prefix_cons]
    · obtain ⟨g, gs, _, h2⟩ := bytesSplit_cons_ne c cs 59 hc
      rw [h2] at h
      simp only [List.cons.injEq] at h
      obtain ⟨rfl, rfl⟩ := h
      simp [List.cons_prefix_cons, Ne.symm hc]

theorem bytesSplit_head_four (s f : List Byte) (fs : List (List Byte))
    (h : bytesSplit s 59 = f :: fs) : f = [52] ↔ s = [52] ∨ [52, 59] <+: s := by
  cases s with
  | nil =>
    simp only [bytesSplit, List.cons.injEq] at h
    obtain ⟨rfl, rfl⟩ := h
    simp
  | cons c cs =>
    by_cases hc : c = 59
    · subst hc
      rw [bytesSplit_cons_sep] at h
      simp only [List.cons.injEq] at h
      obtain ⟨rfl, rfl⟩ := h
      simp [List.cons_prefix_cons]
    · obtain ⟨g, gs, h1, h2⟩ := bytesSplit_cons_ne c cs 59 hc
      rw [h2] at h
      simp only [List.cons.injEq] at h
      obtain ⟨rfl, rfl⟩ := h
      have hg := bytesSplit_head_nil cs g gs h1
      simp only [List.cons.injEq, List.cons_prefix_cons, hg]
      constructor
      · rintro ⟨rfl, h3 | h3⟩
        · exact Or.inl ⟨rfl, h3⟩
        · exact Or.inr ⟨rfl, h3⟩
      · rintro (⟨rfl, h3⟩ | ⟨h3, h4⟩)
        · exact ⟨rfl, Or.inl h3⟩
        · exact ⟨h3.symm, Or.inr h4⟩

theorem bytesSplit_tail_four (s : List Byte) : ∀ (f : List Byte) (fs : List (List Byte)),
    bytesSplit s 59 = f :: fs →
      ([52] ∈ fs ↔ [59, 52, 59] <:+: s ∨ [59, 52] <:+ s) := by
  induction s with
  | nil =>
    intro f fs h
    simp only [bytesSplit, List.cons.injEq] at h
    obtain ⟨rfl, rfl⟩ := h
    simp
  | cons c cs ih =>
    intro f fs h
    by_cases hc : c = 59
    · subst hc
      rw [bytesSplit_cons_sep] at h
      simp only [List.cons.injEq] at h
      obtain ⟨rfl, rfl⟩ := h
      cases hs : bytesSplit cs 59 with
      | nil => exact absurd hs (bytesSplit_ne_nil cs 59)
      | cons g gs =>
        have h1 := bytesSplit_head_four cs g gs hs
        have h2 := ih g gs hs
        have h3 : ([52] : List Byte) = g ↔ g = [52] := eq_comm
        have h4 : ([59, 52] : List Byte) = 59 :: cs ↔ cs = [52] := by
          simp only [List.cons.injEq, true_and]
          exact eq_comm
        have h5 : ([59, 52, 59] : List Byte) <+: 59 :: cs ↔ [52, 59] <+: cs := by
          simp [List.cons_prefix_cons]
        rw [List.infix_cons_iff, List.suffix_cons_iff, List.mem_cons, h3, h1, h2, h4, h5]
        tauto
    · obtain ⟨g, gs, h1, h2⟩ := bytesSplit_cons_ne c cs 59 hc
      rw [h2] at h
      simp only [List.cons.injEq] at h
      obtain ⟨rfl, rfl⟩ := h
      rw [ih g gs h1, List.infix_cons_iff, List.suffix_cons_iff, List.cons_prefix_cons]
      simp [Ne.symm hc]

theorem bytesSplit_mem_four (t : List Byte) :
    [52] ∈ bytesSplit t 59 ↔ [59, 52, 59] <:+: 59 :: t ∨ [59, 52] <:+ 59 :: t :=
  bytesSplit_tail_four (59 :: t) [] (bytesSplit t 59) (bytesSplit_cons_sep t 59)

/-! ## Claims about the sixel probe -/

theorem sliceBytes_buffer (r : List Byte) (hn : r.length ≤ 100) (lo : Nat)
    (hlo : lo ≤ r.length) :
    sliceBytes ((r ++ List.replicate (100 - r.length) 0).take 100) lo r.length
      = some (r.drop lo) := by
  have hb : (r ++ List.replicate (100 - r.length) 0).take 100
      = r ++ List.replicate (100 - r.length) 0 := by
    apply List.take_of_length_le
    simp only [List.length_append, List.length_replicate]
    omega
  rw [hb]
  unfold sliceBytes
  rw [if_pos]
  · simp
  · simp only [List.length_append, List.length_replicate]
    omega

theorem daPrefix_drop (r : List Byte) (h : daPrefix <+: r) :
    4 ≤ r.length ∧ ∃ t, r.drop 4 = 51 :: 59 :: t ∧ r.drop 5 = 59 :: t := by
  obtain ⟨t, rfl⟩ := h
  refine ⟨?_, t, ?_, ?_⟩
  · simp [daPrefix]
  · simp [daPrefix]
  · simp [daPrefix]

theorem sixelSupported_eval (r : List Byte) (hn : r.length ≤ 100) :
    sixelSupported (replyTerminal r)
      = some (decide (daPrefix <+: r ∧ [52] ∈ bytesSplit (r.drop 4) 59)) := by
  unfold sixelSupported replyTerminal
  simp only [Bool.not_true, Bool.false_eq_true, if_false]
  rw [sliceBytes_buffer r hn 0 (Nat.zero_le _)]
  simp only [List.drop_zero]
  by_cases hp : daPrefix <+: r
  · have hb : bytesHasPrefix r daPrefix = true := by
      simpa [bytesHasPrefix] using hp
    rw [sliceBytes_buffer r hn 4 (daPrefix_drop r hp).1]
    simp only [hb, Bool.not_true, Bool.false_eq_true, if_false, Option.some.injEq]
    rw [Bool.eq_iff_iff]
    simp only [List.any_eq_true, isFour_iff, decide_eq_true_eq, hp, true_and]
    constructor
    · rintro ⟨t, ht, rfl⟩
      exact ht
    · intro h
      exact ⟨[52], h, rfl⟩
  · have hb : bytesHasPrefix r daPrefix = false := by
      rw [Bool.eq_false_iff]
      intro h
      exact hp (List.isPrefixOf_iff_prefix.mp h)
    simp [hb, hp]

/-- C10: when `MakeRaw`, the write and the read succeed and the reply is the
bytes `r`, at most 100, `sixelSupported` returns (without a slice panic)
true exactly when `r` begins with `ESC [ ? 6 3 ;` and some field of `r[4:n]`
split on `;` is the single byte `4`; the slice `r[4:n]` is in bounds whenever
the prefix is there; given the prefix, such a field exists exactly when
`r[5:n]` contains `;4;` or ends with `;4`; and the replies `ESC[?63;4c` and
`ESC[?63;1;4c` give false. -/
theorem sixelSupported_parse (r : List Byte) (hn : r.length ≤ 100) :
    sixelSupported (replyTerminal r)
      = some (decide (daPrefix <+: r ∧ [52] ∈ bytesSplit (r.drop 4) 59)) ∧
    (daPrefix <+: r →
      sliceBytes ((r ++ List.replicate (100 - r.length) 0).take 100) 4 r.length
        = some (r.drop 4)) ∧
    (daPrefix <+: r →
      ([52] ∈ bytesSplit (r.drop 4) 59 ↔
        [59, 52, 59] <:+: r.drop 5 ∨ [59, 52] <:+ r.drop 5)) ∧
    sixelSupported (replyTerminal [27, 91, 63, 54, 51, 59, 52, 99]) = some false ∧
    sixelSupported (replyTerminal [27, 91, 63, 54, 51, 59, 49, 59, 52, 99]) = some false := by
  refine ⟨sixelSupported_eval r hn, ?_, ?_, by decide, by decide⟩
  · intro hp
    exact sliceBytes_buffer r hn 4 (daPrefix_drop r hp).1
  · intro hp
    obtain ⟨_, t, h4, h5⟩ := daPrefix_drop r hp
    rw [h4, h5, ← bytesSplit_mem_four t]
    obtain ⟨g, gs, h1, h2⟩ := bytesSplit_cons_ne 51 (59 :: t) 59 (by decide)
    rw [bytesSplit_cons_sep] at h1
    simp only [List.cons.injEq] at h1
    obtain ⟨rfl, rfl⟩ := h1
    rw [h2]
    simp

/-- Witness of C10: the reply `ESC[?63;1;2;4;6c` has 14 bytes and makes
`sixelSupported` return true. -/
theorem sixelSupported_parse_witness :
    daReplySixel.length ≤ 100 ∧
    sixelSupported (replyTerminal daReplySixel) = some true :=
  ⟨by decide, (sixelSupported_parse daReplySixel (by decide)).1.trans (by decide)⟩

end Amesh
